import Mathlib

/-!
Verification development for the `cloudns_api` Python library.

The definitions below are a shallow embedding of the library's core modules
(`api.py`, `validation.py`, `parameters.py`).  Python runtime values that flow
through the embedded code are modelled by the `PValue` type; Python dicts are
modelled as association lists with Python's insertion/overwrite semantics;
functions that can raise are modelled with explicit result types.
-/

/-- Model of the Python runtime values handled by the library: `None`, `bool`,
`int`, `str`, `list` and `dict` (JSON-decoded bodies, parameter values). -/
inductive PValue where
  | none
  | bool (b : Bool)
  | int (n : Int)
  | str (s : String)
  | list (xs : List PValue)
  | dict (entries : List (String × PValue))

/-- Python truthiness (`bool(v)`) for the modelled values. -/
def truthy : PValue → Bool
  | PValue.none => false
  | PValue.bool b => b
  | PValue.int n => n != 0
  | PValue.str s => s != ""
  | PValue.list xs => !xs.isEmpty
  | PValue.dict es => !es.isEmpty

/-- Python `==` on the modelled values.  Numeric comparison identifies `bool`
with `int` (`True == 1`, `False == 0`), exactly as Python does.  Every `==`
call site embedded below compares against a scalar constant (a string or an
int), so container-vs-container equality is never exercised; it is modelled
as `false`. -/
def pyEq : PValue → PValue → Bool
  | PValue.none, PValue.none => true
  | PValue.bool a, PValue.bool b => a == b
  | PValue.bool a, PValue.int b => (if a then (1 : Int) else 0) == b
  | PValue.int a, PValue.bool b => a == (if b then (1 : Int) else 0)
  | PValue.int a, PValue.int b => a == b
  | PValue.str a, PValue.str b => a == b
  | _, _ => false

/-- ASCII `[A-Z]`, the character class used by the source regexes. -/
def isUpperAZ (c : Char) : Bool := 65 ≤ c.toNat && c.toNat ≤ 90

/-- ASCII `[a-z]`. -/
def isLowerAZ (c : Char) : Bool := 97 ≤ c.toNat && c.toNat ≤ 122

/-- ASCII `[0-9]`. -/
def isDigit09 (c : Char) : Bool := 48 ≤ c.toNat && c.toNat ≤ 57

/-- ASCII `[a-zA-Z]`. -/
def isAlphaAZ (c : Char) : Bool := isUpperAZ c || isLowerAZ c

/-- Python `str.lower()` on one character (the embedded strings are ASCII). -/
def pyLowerChar (c : Char) : Char :=
  if h : 65 ≤ c.toNat ∧ c.toNat ≤ 90 then
    Char.ofNatAux (c.toNat + 32) (Or.inl (by omega))
  else c

/-- Python `str.upper()` on one character (the embedded strings are ASCII). -/
def pyUpperChar (c : Char) : Char :=
  if h : 97 ≤ c.toNat ∧ c.toNat ≤ 122 then
    Char.ofNatAux (c.toNat - 32) (Or.inl (by omega))
  else c

/-- Python `str.lower()`. -/
def pyLowerStr (s : String) : String := String.mk (s.data.map pyLowerChar)

/-- Python `str.upper()`. -/
def pyUpperStr (s : String) : String := String.mk (s.data.map pyUpperChar)

/-! ## Python dict operations

A Python dict is modelled as a `List (String × PValue)` in insertion order.
`d[k] = v` overwrites in place when the key exists and appends otherwise,
which is exactly Python's behaviour. -/

/-- Key lookup, `d[k]` / `k in d`. -/
def lookupD (d : List (String × PValue)) (k : String) : Option PValue :=
  match d.find? (fun p => p.1 == k) with
  | some p => some p.2
  | Option.none => Option.none

/-- Python `k in d`. -/
def containsKeyD (d : List (String × PValue)) (k : String) : Bool :=
  d.any (fun p => p.1 == k)

/-- Python `d[k] = v`: overwrite in place when present, append otherwise. -/
def dictInsert (d : List (String × PValue)) (k : String) (v : PValue) :
    List (String × PValue) :=
  if containsKeyD d k then d.map (fun p => if p.1 == k then (k, v) else p)
  else d ++ [(k, v)]

/-- Python `{**a, **b}`: a copy of `a` updated with `b`'s items in order. -/
def dictMerge (a b : List (String × PValue)) : List (String × PValue) :=
  b.foldl (fun acc p => dictInsert acc p.1 p.2) a

/-- Python `{key: value for key, value in kwargs.items() if key in keys}`
(`kwargs` has unique keys, so the comprehension is a filter). -/
def restrictKeys (d : List (String × PValue)) (keys : List String) :
    List (String × PValue) :=
  d.filter (fun p => keys.contains p.1)

/-! ## `api.py`: snake-case key normalization

`_first_cap_re = re.compile('(.)([A-Z][a-z]+)')` and
`_all_cap_re = re.compile('([a-z0-9])([A-Z])')`, both substituted with
`r'\1_\2'`.  `re.sub` scans left to right, replaces non-overlapping matches
and continues after each match; `.` does not match a newline; `[a-z]+` is
greedy. -/

/-- Python `_first_cap_re.sub(r'\1_\2', string)`. -/
def firstCapSub : List Char → List Char
  | [] => []
  | [c] => [c]
  | c0 :: c1 :: rest =>
    if c0 ≠ '\n' && isUpperAZ c1 && !(rest.takeWhile isLowerAZ).isEmpty then
      c0 :: '_' :: c1 :: (rest.takeWhile isLowerAZ ++ firstCapSub (rest.dropWhile isLowerAZ))
    else
      c0 :: firstCapSub (c1 :: rest)
termination_by l => l.length
decreasing_by
  · simp only [List.length_cons]
    have h := (List.dropWhile_sublist (l := rest) isLowerAZ).length_le
    omega
  · simp only [List.length_cons]
    omega

/-- Python `_all_cap_re.sub(r'\1_\2', string)`. -/
def allCapSub : List Char → List Char
  | [] => []
  | [c] => [c]
  | c0 :: c1 :: rest =>
    if (isLowerAZ c0 || isDigit09 c0) && isUpperAZ c1 then
      c0 :: '_' :: c1 :: allCapSub rest
    else
      c0 :: allCapSub (c1 :: rest)
termination_by l => l.length
decreasing_by
  · simp only [List.length_cons]; omega
  · simp only [List.length_cons]; omega

/-- Python `convert_to_snake_case(string)`: both regex substitutions, then
`.lower()`.  (`str(string)` is the identity here since dict keys are
strings.) -/
def convert_to_snake_case (s : String) : String :=
  String.mk ((allCapSub (firstCapSub s.data)).map pyLowerChar)

/-- Python `use_snake_case_keys(original_dict)`: a fresh dict whose keys are
converted one item at a time, in order. -/
def use_snake_case_keys (d : List (String × PValue)) : List (String × PValue) :=
  d.foldl (fun acc p => dictInsert acc (convert_to_snake_case p.1) p.2) []

/-! ## `validation.py` -/

/-- The `details` dict carried by a `ValidationError`:
`{'fieldname': fieldname, 'message': message}`. -/
structure ErrorDetails where
  fieldname : String
  message : String
deriving DecidableEq, Repr

/-- A raised validation exception: either a single `ValidationError` (whose
`get_details` is `[self.details]`) or a `ValidationErrorsBatch` holding the
aggregated errors in order (whose `get_details` is
`[error.details for error in self.validation_errors]`). -/
inductive RaisedValidation where
  | single (details : ErrorDetails)
  | batch (validation_errors : List ErrorDetails)
deriving DecidableEq, Repr

/-- Python `get_details()` of the raised exception. -/
def RaisedValidation.get_details : RaisedValidation → List ErrorDetails
  | RaisedValidation.single d => [d]
  | RaisedValidation.batch es => es

/-- Outcome of one validator call: returned `True`, raised a
`ValidationError`, or raised a non-validation exception (`TypeError` /
`ValueError`), which the library never catches. -/
inductive VResult where
  | ok
  | err (details : ErrorDetails)
  | crash
deriving DecidableEq, Repr

/-- Python `ALGORITHMS = ['RSA', 'DSA', 'ECDSA', 'ED25519']`. -/
def ALGORITHMS : List String := ["RSA", "DSA", "ECDSA", "ED25519"]

/-- Python `is_algorithm`: strings are uppercased and checked against `ALGORITHMS`;
non-strings (`AttributeError` from `.upper()`) are checked against
`[1, 2, 3, 4]` with Python `==`. -/
def is_algorithm (value : PValue) (fieldname : String) : VResult :=
  match value with
  | PValue.str s =>
    if ALGORITHMS.contains (pyUpperStr s) then VResult.ok
    else VResult.err ⟨fieldname, "This field must be RSA, DSA, ECDSA, or Ed25519."⟩
  | v =>
    if [1, 2, 3, 4].any (fun n => pyEq v (PValue.int n)) then VResult.ok
    else VResult.err ⟨fieldname, "This field must be RSA, DSA, ECDSA, or Ed25519."⟩

/-- Python `is_api_bool`: `value != 0 and value != 1` raises. -/
def is_api_bool (value : PValue) (fieldname : String) : VResult :=
  if !pyEq value (PValue.int 0) && !pyEq value (PValue.int 1) then
    VResult.err ⟨fieldname, "This field must be 0 or 1."⟩
  else VResult.ok

/-- Python `is_caa_flag`: `value != 0 and value != 128` raises. -/
def is_caa_flag (value : PValue) (fieldname : String) : VResult :=
  if !pyEq value (PValue.int 0) && !pyEq value (PValue.int 128) then
    VResult.err ⟨fieldname, "This field must be 0 (non-critical) or 128 (critical)."⟩
  else VResult.ok

/-- Python `CAA_TYPES = ['issue', 'issuewild', 'iodef']`. -/
def CAA_TYPES : List String := ["issue", "issuewild", "iodef"]

/-- Python `is_caa_type`: strings are lowercased and checked against `CAA_TYPES`;
non-strings (`AttributeError` from `.lower()`) raise the same error. -/
def is_caa_type (value : PValue) (fieldname : String) : VResult :=
  match value with
  | PValue.str s =>
    if CAA_TYPES.contains (pyLowerStr s) then VResult.ok
    else VResult.err ⟨fieldname, "This field must be one of issue, issuewild, iodef."⟩
  | _ => VResult.err ⟨fieldname, "This field must be one of issue, issuewild, iodef."⟩

/-- Character class `[a-z0-9-]` of the domain-name regex lookahead. -/
def domLabelChar (c : Char) : Bool := isLowerAZ c || isDigit09 c || c == '-'

/-- Python `[a-z0-9]+(-[a-z0-9]+)*`: splitting on `-` yields nonempty all-alphanumeric
groups. -/
def domLabelBody (l : String) : Bool :=
  (l.splitOn "-").all (fun p => !p.isEmpty && p.data.all (fun c => isLowerAZ c || isDigit09 c))

/-- One `((?=[a-z0-9-]{1,63}\.)(xn--)?[a-z0-9]+(-[a-z0-9]+)*\.)` group of the
domain-name regex, applied to the text between two dots: the lookahead bounds
the label at 63 characters and the body optionally starts with a literal
`xn--`. -/
def domLabelOk (l : String) : Bool :=
  l.length ≤ 63 && (domLabelBody l || (l.startsWith "xn--" && domLabelBody (l.drop 4)))

/-- Python `re.match(r'^((?=[a-z0-9-]{1,63}\.)(xn--)?[a-z0-9]+(-[a-z0-9]+)*\.)+[a-z]{2,63}$', value)`
as a decidable matcher.  No label character matches `.`, so the repeated group
consumes exactly the dot-separated labels and the final `[a-z]{2,63}` is the
last dot-free part; `$` also matches just before one trailing newline. -/
def domainRegexMatch (s : String) : Bool :=
  let core := fun (t : String) =>
    let parts := t.splitOn "."
    match parts.getLast? with
    | Option.none => false
    | some tld =>
      let labels := parts.dropLast
      !labels.isEmpty && labels.all domLabelOk &&
        2 ≤ tld.length && tld.length ≤ 63 && tld.data.all isLowerAZ
  core s || (s.endsWith "\n" && core (s.dropRight 1))

/-- Python `is_domain_name`: the regex match on strings; `re.match` raises
`TypeError` on non-strings. -/
def is_domain_name (value : PValue) (fieldname : String) : VResult :=
  match value with
  | PValue.str s =>
    if domainRegexMatch s then VResult.ok
    else VResult.err ⟨fieldname, "This field must be a valid domain name."⟩
  | _ => VResult.crash

/-- Character class `[a-zA-Z0-9_.+-]` of the email regex local part. -/
def emailLocalChar (c : Char) : Bool :=
  isAlphaAZ c || isDigit09 c || c == '_' || c == '.' || c == '+' || c == '-'

/-- Character class `[a-zA-Z0-9-]`. -/
def emailDomChar (c : Char) : Bool := isAlphaAZ c || isDigit09 c || c == '-'

/-- Character class `[a-zA-Z0-9-.]`. -/
def emailTailChar (c : Char) : Bool := emailDomChar c || c == '.'

/-- Python `re.match(r'(^[a-zA-Z0-9_.+-]+@[a-zA-Z0-9-]+\.[a-zA-Z0-9-.]+$)', value)` as
a decidable matcher.  `@` belongs to no class, so the string splits at its
single `@`; the middle part cannot contain a dot, so it ends at the first dot
after the `@`; `$` also matches just before one trailing newline. -/
def emailRegexMatch (s : String) : Bool :=
  let core := fun (t : String) =>
    match t.splitOn "@" with
    | [l, r] =>
      !l.isEmpty && l.data.all emailLocalChar &&
        (let d := r.data.takeWhile (fun c => c ≠ '.')
         let rest := (r.data.dropWhile (fun c => c ≠ '.')).drop 1
         r.data.contains '.' && !d.isEmpty && d.all emailDomChar &&
           !rest.isEmpty && rest.all emailTailChar)
    | _ => false
  core s || (s.endsWith "\n" && core (s.dropRight 1))

/-- Python `is_email`: the regex match on strings; `re.match` raises `TypeError`
on non-strings. -/
def is_email (value : PValue) (fieldname : String) : VResult :=
  match value with
  | PValue.str s =>
    if emailRegexMatch s then VResult.ok
    else VResult.err ⟨fieldname, "This field must be a valid email."⟩
  | _ => VResult.crash

/-- Python `FP_TYPES = ['SHA-1', 'SHA-256']`. -/
def FP_TYPES : List String := ["SHA-1", "SHA-256"]

/-- Python `is_fptype`: strings are uppercased and checked against `FP_TYPES`;
non-strings are checked against `[1, 2]` with Python `==`. -/
def is_fptype (value : PValue) (fieldname : String) : VResult :=
  match value with
  | PValue.str s =>
    if FP_TYPES.contains (pyUpperStr s) then VResult.ok
    else VResult.err ⟨fieldname, "This field must be one of SHA-1 or SHA-256."⟩
  | v =>
    if [1, 2].any (fun n => pyEq v (PValue.int n)) then VResult.ok
    else VResult.err ⟨fieldname, "This field must be one of SHA-1 or SHA-256."⟩

/-- Truthiness of the `min_value` / `max_value` keyword arguments:
`None` and `0` are falsy, every other int is truthy. -/
def optIntTruthy : Option Int → Bool
  | Option.none => false
  | some n => n != 0

/-- Digit-string value (`int(s)` for a nonempty all-digit string). -/
def digitsToNat (s : String) : Nat :=
  s.data.foldl (fun acc c => acc * 10 + (c.toNat - 48)) 0

/-- Python `is_int(value, fieldname, min_value, max_value)`.

`value += 0` succeeds for ints and bools (which coerce to 0/1) and raises
`TypeError` otherwise; the handler then runs `re.findall('[^0-9]', value)`,
which itself raises `TypeError` unless `value` is a string.  The bound checks
are guarded by the *truthiness* of `min_value` / `max_value`, so a bound of 0
disables the check; when a bound is truthy, `int(value)` raises `ValueError`
for the empty string. -/
def is_int (value : PValue) (fieldname : String)
    (min_value max_value : Option Int) : VResult :=
  let boundCheck : Option Int → VResult := fun numVal =>
    if optIntTruthy min_value then
      match numVal with
      | Option.none => VResult.crash
      | some v =>
        if v < min_value.getD 0 then
          VResult.err ⟨fieldname,
            "This field must be greater than " ++ toString (min_value.getD 0) ++ "."⟩
        else if optIntTruthy max_value then
          if v > max_value.getD 0 then
            VResult.err ⟨fieldname,
              "This field must be less than " ++ toString (max_value.getD 0) ++ "."⟩
          else VResult.ok
        else VResult.ok
    else if optIntTruthy max_value then
      match numVal with
      | Option.none => VResult.crash
      | some v =>
        if v > max_value.getD 0 then
          VResult.err ⟨fieldname,
            "This field must be less than " ++ toString (max_value.getD 0) ++ "."⟩
        else VResult.ok
    else VResult.ok
  match value with
  | PValue.int n => boundCheck (some n)
  | PValue.bool b => boundCheck (some (if b then 1 else 0))
  | PValue.str s =>
    if s.data.any (fun c => !isDigit09 c) then
      VResult.err ⟨fieldname, "This field must be an integer."⟩
    else boundCheck (if s.isEmpty then Option.none else some (digitsToNat s))
  | _ => VResult.crash

/-- Python `is_ipv4`: only strings have `.split`; the octet list keeps the parts that
are nonempty digit strings valued 0..255 and its length must be 4. -/
def is_ipv4 (value : PValue) (fieldname : String) : VResult :=
  let octets : List String :=
    match value with
    | PValue.str s =>
      (s.splitOn ".").filter
        (fun o => !o.isEmpty && o.data.all isDigit09 && digitsToNat o ≤ 255)
    | _ => []
  if octets.length ≠ 4 then
    VResult.err ⟨fieldname, "This field must be a valid IPv4 address."⟩
  else VResult.ok

/-- One hex digit of `int(h, 16)`. -/
def hexDigitVal (c : Char) : Option Nat :=
  if isDigit09 c then some (c.toNat - 48)
  else if 97 ≤ c.toNat && c.toNat ≤ 102 then some (c.toNat - 87)
  else if 65 ≤ c.toNat && c.toNat ≤ 70 then some (c.toNat - 55)
  else Option.none

/-- Hex digit sequence with Python's single-underscore-between-digits rule. -/
def parseHexDigits : List Char → Option Nat
  | [] => Option.none
  | l => go l true 0
where
  go : List Char → Bool → Nat → Option Nat
    | [], afterSep, acc => if afterSep then Option.none else some acc
    | c :: rest, afterSep, acc =>
      match hexDigitVal c with
      | some d => go rest false (acc * 16 + d)
      | Option.none =>
        if c == '_' && !afterSep then go rest true acc else Option.none

/-- Python `int(h, 16)`: surrounding whitespace is stripped, then an optional sign,
an optional `0x`/`0X` prefix (optionally followed by one underscore), then
hex digits. -/
def pyIntHex (s : String) : Option Int :=
  let t := s.trim
  let (sign, rest) : Int × List Char :=
    match t.data with
    | '+' :: r => (1, r)
    | '-' :: r => (-1, r)
    | r => (1, r)
  let rest :=
    match rest with
    | '0' :: x :: r =>
      if x == 'x' || x == 'X' then
        match r with
        | '_' :: r2 => if (r2.headD ' ' |> hexDigitVal).isSome then r2 else r
        | _ => r
      else rest
    | _ => rest
  match parseHexDigits rest with
  | some n => some (sign * Int.ofNat n)
  | Option.none => Option.none

/-- Python `is_ipv6`: only strings have `.split`; if any `int(h, 16)` raises
`ValueError` the hextet list is empty, otherwise it keeps the values in
0..65535; its length must be 8. -/
def is_ipv6 (value : PValue) (fieldname : String) : VResult :=
  let hextet : List Int :=
    match value with
    | PValue.str s =>
      match (s.splitOn ":").mapM pyIntHex with
      | some vs => vs.filter (fun v => 0 ≤ v && v ≤ 65535)
      | Option.none => []
    | _ => []
  if hextet.length ≠ 8 then
    VResult.err ⟨fieldname, "This field must be a valid IPv6 address."⟩
  else VResult.ok

/-- Python `RECORD_TYPES` exactly as listed in `validation.py` (no `TLSA`). -/
def RECORD_TYPES : List String :=
  ["A", "AAAA", "MX", "CNAME", "TXT", "SPF", "NS", "SRV", "WR",
   "RP", "SSHFP", "ALIAS", "CAA", "NAPTR", "PTR"]

/-- Python `is_record_type`: strings are uppercased and checked against
`RECORD_TYPES`; non-strings (`AttributeError` from `.upper()`) raise. -/
def is_record_type (value : PValue) (fieldname : String) : VResult :=
  match value with
  | PValue.str s =>
    if RECORD_TYPES.contains (pyUpperStr s) then VResult.ok
    else VResult.err ⟨fieldname, "This field must be a valid domain record type."⟩
  | _ => VResult.err ⟨fieldname, "This field must be a valid domain record type."⟩

/-- Python `is_redirect_type`: `value != 301 and value != 302` raises. -/
def is_redirect_type (value : PValue) (fieldname : String) : VResult :=
  if !pyEq value (PValue.int 301) && !pyEq value (PValue.int 302) then
    VResult.err ⟨fieldname, "This field must be 301 (permanent) or 302 (temporary)."⟩
  else VResult.ok

/-- Python `is_required`: `value is None or value == ''` raises. -/
def is_required (value : PValue) (fieldname : String) : VResult :=
  if (match value with | PValue.none => true | _ => false) || pyEq value (PValue.str "") then
    VResult.err ⟨fieldname, "This field is required."⟩
  else VResult.ok

/-- Python `is_rows_per_page`: membership in `[10, 20, 30, 50, 100, '10', '20',
'30', '50', '100']` under Python `==`. -/
def is_rows_per_page (value : PValue) (fieldname : String) : VResult :=
  if ([10, 20, 30, 50, 100].any (fun n => pyEq value (PValue.int n)) ||
      ["10", "20", "30", "50", "100"].any (fun t => pyEq value (PValue.str t))) then
    VResult.ok
  else VResult.err ⟨fieldname, "This field must be one of: 10, 20, 30, 50, or 100."⟩

/-- Python `is_tlsa_matching_type`: membership in `[0, 1, 2, '0', '1', '2']`. -/
def is_tlsa_matching_type (value : PValue) (fieldname : String) : VResult :=
  if ([0, 1, 2].any (fun n => pyEq value (PValue.int n)) ||
      ["0", "1", "2"].any (fun t => pyEq value (PValue.str t))) then
    VResult.ok
  else VResult.err ⟨fieldname, "This field must be one of: 0, 1, or 2"⟩

/-- Python `is_tlsa_selector`: membership in `[0, 1, '0', '1']`. -/
def is_tlsa_selector (value : PValue) (fieldname : String) : VResult :=
  if ([0, 1].any (fun n => pyEq value (PValue.int n)) ||
      ["0", "1"].any (fun t => pyEq value (PValue.str t))) then
    VResult.ok
  else VResult.err ⟨fieldname, "This field must be one of: 0 or 1"⟩

/-- Python `is_tlsa_usage`: membership in `[0, 1, 2, 3, '0', '1', '2', '3']`. -/
def is_tlsa_usage (value : PValue) (fieldname : String) : VResult :=
  if ([0, 1, 2, 3].any (fun n => pyEq value (PValue.int n)) ||
      ["0", "1", "2", "3"].any (fun t => pyEq value (PValue.str t))) then
    VResult.ok
  else VResult.err ⟨fieldname, "This field must be one of: 0, 1, 2, or 3"⟩

/-- Python `TTL_STRINGS` exactly as listed in `validation.py`. -/
def TTL_STRINGS : List String :=
  ["1 minute", "5 minutes", "15 minutes", "30 minutes", "1 hour",
   "6 hours", "12 hours", "1 day", "2 days", "3 days", "1 week",
   "2 weeks", "1 month", "60", "300", "900", "1800", "3600",
   "21600", "43200", "86400", "172800", "259200", "604800",
   "1209600", "2592000"]

/-- Python `TTLS` exactly as listed in `validation.py`. -/
def TTLS : List Int :=
  [60, 300, 900, 1800, 3600, 21600, 43200, 86400, 172800, 259200, 604800,
   1209600, 2592000]

/-- The long `is_ttl` error message, concatenated exactly as in the source. -/
def ttlErrorMessage : String :=
  "This field must be a valid ttl. " ++
  "(1 minute, 5 minutes, 15 minutes, 30 minutes," ++
  " 1 hour, 6 hours, 12 hours, 1 day, 2 days, 3 " ++
  "days, 1 week, 2 weeks, or 1 month) or (60, " ++
  "300, 900, 1800, 3600, 21600, 43200, 86400, " ++
  "172800, 259200, 604800, 1209600, or 2592000)"

/-- Python `is_ttl`: strings are lowercased first (`hasattr(value, 'lower')`), then
membership in `TTLS` or `TTL_STRINGS` under Python `==`. -/
def is_ttl (value : PValue) (fieldname : String) : VResult :=
  let v := match value with | PValue.str s => PValue.str (pyLowerStr s) | x => x
  if !(TTLS.any (fun n => pyEq v (PValue.int n))) &&
     !(TTL_STRINGS.any (fun t => pyEq v (PValue.str t))) then
    VResult.err ⟨fieldname, ttlErrorMessage⟩
  else VResult.ok

/-- Python `is_valid`: a stub that always returns `True`. -/
def is_valid (_value : PValue) (_fieldname : String) : VResult := VResult.ok

/-- Python `ZONE_TYPES` exactly as listed in `validation.py`. -/
def ZONE_TYPES : List String :=
  ["master", "slave", "parked", "geodns", "domain", "reverse"]

/-- Python `is_zone_type`: strings are lowercased first, then membership in
`ZONE_TYPES` under Python `==`. -/
def is_zone_type (value : PValue) (fieldname : String) : VResult :=
  let v := match value with | PValue.str s => PValue.str (pyLowerStr s) | x => x
  if !(ZONE_TYPES.any (fun t => pyEq v (PValue.str t))) then
    VResult.err ⟨fieldname, "This field must be a valid zone type. (master, slave, parked, or geodns)"⟩
  else VResult.ok

/-- The uniform shape of a registered validator: every Python validator
accepts `(value, fieldname, **kwargs)`; only `is_int` reads the
`min_value` / `max_value` keyword arguments, the others ignore them. -/
def Validator : Type := PValue → String → Option Int → Option Int → VResult

/-- The `validation_functions` dict, in source order. -/
def validation_functions : List (String × Validator) :=
  [("admin-mail",          fun v f _ _ => is_email v f),
   ("algorithm",           fun v f _ _ => is_algorithm v f),
   ("bool",                fun v f _ _ => is_api_bool v f),
   ("caa_flag",            fun v f _ _ => is_caa_flag v f),
   ("caa_type",            fun v f _ _ => is_caa_type v f),
   ("caa_value",           fun v f _ _ => is_valid v f),
   ("default-ttl",         fun v f _ _ => is_ttl v f),
   ("domain-name",         fun v f _ _ => is_domain_name v f),
   ("email",               fun v f _ _ => is_email v f),
   ("fptype",              fun v f _ _ => is_fptype v f),
   ("frame",               fun v f _ _ => is_api_bool v f),
   ("frame-title",         fun v f _ _ => is_valid v f),
   ("geodns-location",     fun v f mi ma => is_int v f mi ma),
   ("integer",             fun v f mi ma => is_int v f mi ma),
   ("ipv4",                fun v f _ _ => is_ipv4 v f),
   ("ipv6",                fun v f _ _ => is_ipv6 v f),
   ("mail",                fun v f _ _ => is_email v f),
   ("page",                fun v f mi ma => is_int v f mi ma),
   ("port",                fun v f mi ma => is_int v f mi ma),
   ("primary-ns",          fun v f _ _ => is_domain_name v f),
   ("priority",            fun v f mi ma => is_int v f mi ma),
   ("record",              fun v f _ _ => is_required v f),
   ("record-id",           fun v f mi ma => is_int v f mi ma),
   ("record-type",         fun v f _ _ => is_record_type v f),
   ("redirect-type",       fun v f _ _ => is_redirect_type v f),
   ("refresh",             fun v f mi ma => is_int v f mi ma),
   ("required",            fun v f _ _ => is_required v f),
   ("rows-per-page",       fun v f _ _ => is_rows_per_page v f),
   ("save-path",           fun v f _ _ => is_api_bool v f),
   ("status",              fun v f _ _ => is_api_bool v f),
   ("tlsa_matching_type",  fun v f _ _ => is_tlsa_matching_type v f),
   ("tlsa_selector",       fun v f _ _ => is_tlsa_selector v f),
   ("tlsa_usage",          fun v f _ _ => is_tlsa_usage v f),
   ("ttl",                 fun v f _ _ => is_ttl v f),
   ("txt",                 fun v f _ _ => is_domain_name v f),
   ("valid",               fun v f _ _ => is_valid v f),
   ("weight",              fun v f mi ma => is_int v f mi ma),
   ("zone-type",           fun v f _ _ => is_zone_type v f)]

/-- Registry lookup (`validate_as in validation_functions` /
`validation_functions[validate_as]`). -/
def lookupValidator (key : String) : Option Validator :=
  match validation_functions.find? (fun p => p.1 == key) with
  | some p => some p.2
  | Option.none => Option.none

/-- The keyword options forwarded to `validate`: `optional`, `validate_as`
and the `**kwargs` actually used by the registered validators
(`min_value` / `max_value`). -/
structure VOptions where
  optional : Bool := false
  validate_as : Option String := Option.none
  min_value : Option Int := Option.none
  max_value : Option Int := Option.none

/-- Python `validate(fieldname, value, optional=False, validate_as=None, ...)`.

Short-circuits on `optional and not value`; requires non-`None`, non-`''`
values otherwise; dispatches through `validation_functions` keyed by
`validate_as` (falling back to `fieldname` when `validate_as` is falsy),
passing unregistered keys unchecked.  Every registered validator either
returns `True` or raises, so the trailing fallback raise in the source is
unreachable. -/
def validate (fieldname : String) (value : PValue) (opts : VOptions) : VResult :=
  if opts.optional && !truthy value then VResult.ok
  else if (match value with | PValue.none => true | _ => false) ||
          pyEq value (PValue.str "") then
    VResult.err ⟨fieldname, "This field (" ++ fieldname ++ ") is required."⟩
  else
    let validate_as :=
      match opts.validate_as with
      | some s => if s == "" then fieldname else s
      | Option.none => fieldname
    match lookupValidator validate_as with
    | Option.none => VResult.ok
    | some f => f value fieldname opts.min_value opts.max_value

/-! ## `parameters.py` -/

/-- One entry of the `params_with_options` dict: either a bare value or a
descriptor dict holding the value and its validation options. -/
inductive ParamEntry where
  | bare (value : PValue)
  | withOptions (value : PValue) (opts : VOptions)

/-- A `Parameters` object after construction: its `_params_with_options`
mapping in insertion order (authentication defaults already merged in). -/
structure Parameters where
  _params_with_options : List (String × ParamEntry)

/-- The engine call made for one field of `Parameters.validate`: descriptor
options are expanded (`value = options.pop('value')`), bare values get no
options. -/
def runFieldValidation : String × ParamEntry → VResult
  | (fieldname, ParamEntry.bare v) => validate fieldname v {}
  | (fieldname, ParamEntry.withOptions v opts) => validate fieldname v opts

/-- The `for` loop of `Parameters.validate`: appends each caught
`ValidationError` to `errors` in order; a non-validation exception
propagates immediately (modelled as `Except.error ()`). -/
def validateFieldsLoop :
    List (String × ParamEntry) → List ErrorDetails →
    Except Unit (List ErrorDetails)
  | [], acc => Except.ok acc
  | p :: ps, acc =>
    match runFieldValidation p with
    | VResult.ok => validateFieldsLoop ps acc
    | VResult.err e => validateFieldsLoop ps (acc ++ [e])
    | VResult.crash => Except.error ()

/-- Python `Parameters.validate()`: run the loop, then raise nothing, the single
error, or a `ValidationErrorsBatch` depending on how many errors were
collected.  `Except.ok x` is normal return with `x` the raised-validation
outcome (`none` when validation passed); `Except.error ()` is an uncaught
non-validation exception. -/
def Parameters.validate (ps : Parameters) : Except Unit (Option RaisedValidation) :=
  match validateFieldsLoop ps._params_with_options [] with
  | Except.error () => Except.error ()
  | Except.ok errors =>
    Except.ok
      (match errors with
       | [] => Option.none
       | [e] => some (RaisedValidation.single e)
       | es => some (RaisedValidation.batch es))

/-! ## `api.py`: response envelope, decorators -/

/-- Python `requests.codes.OK`. -/
def codeOK : Int := 200

/-- Python `requests.codes.BAD_REQUEST`. -/
def codeBAD_REQUEST : Int := 400

/-- Python `requests.codes.SERVER_ERROR`. -/
def codeSERVER_ERROR : Int := 500

/-- Python `requests.codes.GATEWAY_TIMEOUT`. -/
def codeGATEWAY_TIMEOUT : Int := 504

/-- A raw transport response (a `requests` response or a
`RequestResponseStub`): a numeric status code and the JSON-decoded body
returned by `.json()`. -/
structure RequestResponse where
  status_code : Int
  body : PValue

/-- The mutable state of an `ApiResponse` object: `error` and
`validation_errors` (both initially unset), the stored raw response, and the
`_status_code` attribute written by the `status_code` setter. -/
structure ApiResponse where
  error : PValue := PValue.none
  validation_errors : Option (List ErrorDetails) := Option.none
  response : Option RequestResponse := Option.none
  _status_code : Option Int := Option.none

/-- The `status_code` property: the `_status_code` attribute when it was set,
else the raw response's status code, else `None`. -/
def ApiResponse.status_code (r : ApiResponse) : Option Int :=
  match r._status_code with
  | some c => some c
  | Option.none =>
    match r.response with
    | some resp => some resp.status_code
    | Option.none => Option.none

/-- The `payload` property: `{}` without a response; dict bodies get their
top-level keys rewritten by `use_snake_case_keys`; every other body is
returned as is. -/
def ApiResponse.payload (r : ApiResponse) : PValue :=
  match r.response with
  | Option.none => PValue.dict []
  | some resp =>
    match resp.body with
    | PValue.dict es => PValue.dict (use_snake_case_keys es)
    | b => b

/-- The `success` property: the status code is `OK` and `error` is falsy. -/
def ApiResponse.success (r : ApiResponse) : Bool :=
  (r.status_code == some codeOK) && !truthy r.error

/-- Python `str(self.status_code)` as used in the HTTP-error message. -/
def ApiResponse.statusCodeStr (r : ApiResponse) : String :=
  match r.status_code with
  | some n => toString n
  | Option.none => "None"

/-- Python `ApiResponse.create(response)`.

Stores the response; tries `self.payload['error']`, swallowing
`TypeError` / `KeyError`; then, when `error` is falsy and the status code is
not `OK`, sets the generic HTTP message; otherwise (an `elif`), when the
payload is a dict whose `'status'` equals `'Failed'`, sets
`self.payload['status_description']` — a `KeyError` when that key is absent,
which propagates with the object partially updated (`Except.error` carries
that partial state). -/
def ApiResponse.create (st : ApiResponse) (resp : RequestResponse) :
    Except ApiResponse ApiResponse :=
  let st1 : ApiResponse := { st with response := some resp }
  let st2 : ApiResponse :=
    match st1.payload with
    | PValue.dict es =>
      match lookupD es "error" with
      | some v => { st1 with error := v }
      | Option.none => st1
    | _ => st1
  if !truthy st2.error && !(st2.status_code == some codeOK) then
    Except.ok { st2 with error := PValue.str ("HTTP response " ++ st2.statusCodeStr) }
  else
    match st2.payload with
    | PValue.dict es =>
      if (match lookupD es "status" with
          | some v => pyEq v (PValue.str "Failed")
          | Option.none => false) then
        match lookupD es "status_description" with
        | some v => Except.ok { st2 with error := v }
        | Option.none => Except.error st2
      else Except.ok st2
    | _ => Except.ok st2

/-- The exception classes distinguished by the `api` decorator's handlers,
in groups exactly matching its `except` clauses:
`(ConnectTimeout, Timeout, ReadTimeout)`;
`(ContentDecodingError, ConnectionError, HTTPError, SSLError,
TooManyRedirects)`; `ApiException` (message and class `status_code`);
`ValidationError` (including `ValidationErrorsBatch`); anything else. -/
inductive PyExc where
  | timeoutExc (msg : String)
  | connectionExc (msg : String)
  | apiExc (message : String) (status_code : Int)
  | validationExc (raised : RaisedValidation)
  | otherExc (msg : String)

/-- One `except` handler body of the `api` decorator, applied to the
response object in whatever state it had reached (`CLOUDNS_API_DEBUG`
substitutes `str(e)` in the timeout, connection and catch-all branches). -/
def handleExc (debug : Bool) (st : ApiResponse) : PyExc → ApiResponse
  | PyExc.timeoutExc m =>
    { st with error := PValue.str (if debug then m else "API Connection timed out."),
              _status_code := some codeGATEWAY_TIMEOUT }
  | PyExc.connectionExc m =>
    { st with error := PValue.str (if debug then m else "API Network Connection error."),
              _status_code := some codeSERVER_ERROR }
  | PyExc.apiExc m c =>
    { st with error := PValue.str m, _status_code := some c }
  | PyExc.validationExc r =>
    { st with error := PValue.str "Validation error.",
              validation_errors := some r.get_details,
              _status_code := some codeBAD_REQUEST }
  | PyExc.otherExc m =>
    { st with error := PValue.str (if debug then m else "Something went wrong."),
              _status_code := some codeSERVER_ERROR }

/-- Python `str(e)` for the `KeyError('status_description')` that
`ApiResponse.create` can raise. -/
def keyErrorStatusDescriptionMsg : String :=
  String.mk (Char.ofNat 39 :: "status_description".data ++ [Char.ofNat 39])

/-- The `api_wrapper` closure produced by the `api` decorator.  `outcome` is
the result of evaluating `api_call(*args, **kwargs)`: either the returned raw
response or the exception it raised.  `response.create(...)` runs inside the
same `try`, so the `KeyError` it can raise lands in the catch-all handler
with the partially updated response object. -/
def api_wrapper (debug : Bool) (outcome : Except PyExc RequestResponse) :
    ApiResponse :=
  match outcome with
  | Except.ok resp =>
    match ApiResponse.create {} resp with
    | Except.ok st => st
    | Except.error st => handleExc debug st (PyExc.otherExc keyErrorStatusDescriptionMsg)
  | Except.error e => handleExc debug {} e

/-- Result of the `api_wrapper` closure produced by `patch_update`: either
the failed `get` envelope returned directly, or the wrapped update call's
result, or the `TypeError` that `{**response.payload, **kwargs}` raises when
the fetched payload is not a mapping. -/
inductive PatchOutcome (R : Type) where
  | getFailed (response : ApiResponse)
  | updated (result : R)
  | typeErrRaised

/-- The `api_wrapper` closure produced by `patch_update(get, keys)` around
`api_call`, applied to keyword arguments `kwargs`. -/
def patch_update_wrapper {R : Type}
    (get : List (String × PValue) → ApiResponse) (keys : List String)
    (api_call : List (String × PValue) → R)
    (kwargs : List (String × PValue)) : PatchOutcome R :=
  if (match lookupD kwargs "patch" with
      | some v => truthy v
      | Option.none => false) then
    let response := get (restrictKeys kwargs keys)
    if !response.success then PatchOutcome.getFailed response
    else
      match response.payload with
      | PValue.dict es => PatchOutcome.updated (api_call (dictMerge es kwargs))
      | _ => PatchOutcome.typeErrRaised
  else PatchOutcome.updated (api_call kwargs)

/-! ## Lemmas: characters and snake-case strings -/

theorem toNat_ofNatAux (n : Nat) (h : n.isValidChar) :
    (Char.ofNatAux n h).toNat = n := by
  simp [Char.ofNatAux, Char.toNat, UInt32.toNat]

theorem isUpperAZ_pyLowerChar (c : Char) : isUpperAZ (pyLowerChar c) = false := by
  unfold pyLowerChar
  split
  · rename_i h
    simp only [isUpperAZ, toNat_ofNatAux]
    simp only [Bool.and_eq_false_imp, decide_eq_true_eq, decide_eq_false_iff_not]
    omega
  · rename_i h
    simp only [isUpperAZ]
    rcases Nat.lt_or_ge c.toNat 65 with h1 | h1
    · simp only [Bool.and_eq_false_iff, decide_eq_false_iff_not]
      omega
    · simp only [Bool.and_eq_false_iff, decide_eq_false_iff_not]
      omega

theorem pyLowerChar_of_not_upper {c : Char} (h : isUpperAZ c = false) :
    pyLowerChar c = c := by
  unfold pyLowerChar
  split
  · rename_i hc
    exfalso
    simp only [isUpperAZ, Bool.and_eq_false_iff, decide_eq_false_iff_not] at h
    omega
  · rfl

theorem map_pyLowerChar_no_upper (l : List Char) :
    ∀ c ∈ l.map pyLowerChar, isUpperAZ c = false := by
  intro c hc
  rcases List.mem_map.mp hc with ⟨a, _, rfl⟩
  exact isUpperAZ_pyLowerChar a

theorem map_pyLowerChar_eq_self {l : List Char}
    (h : ∀ c ∈ l, isUpperAZ c = false) : l.map pyLowerChar = l := by
  induction l with
  | nil => rfl
  | cons c l ih =>
    simp only [List.map_cons]
    rw [pyLowerChar_of_not_upper (h c (List.mem_cons_self c l)),
        ih (fun a ha => h a (List.mem_cons_of_mem c ha))]

theorem firstCapSub_eq_self {l : List Char}
    (h : ∀ c ∈ l, isUpperAZ c = false) : firstCapSub l = l := by
  induction l using firstCapSub.induct with
  | case1 => simp [firstCapSub]
  | case2 c => simp [firstCapSub]
  | case3 c0 c1 rest hcond ih =>
    exfalso
    have hc1 : isUpperAZ c1 = false := h c1 (by simp)
    simp only [Bool.and_eq_true, decide_eq_true_eq, Bool.not_eq_eq_eq_not,
      Bool.not_true] at hcond
    rw [hc1] at hcond
    simp at hcond
  | case4 c0 c1 rest hcond ih =>
    rw [firstCapSub, if_neg (by simpa using hcond)]
    rw [ih (fun a ha => h a (List.mem_cons_of_mem c0 ha))]

theorem allCapSub_eq_self {l : List Char}
    (h : ∀ c ∈ l, isUpperAZ c = false) : allCapSub l = l := by
  induction l using allCapSub.induct with
  | case1 => simp [allCapSub]
  | case2 c => simp [allCapSub]
  | case3 c0 c1 rest hcond ih =>
    exfalso
    have hc1 : isUpperAZ c1 = false := h c1 (by simp)
    simp only [Bool.and_eq_true] at hcond
    rw [hc1] at hcond
    simp at hcond
  | case4 c0 c1 rest hcond ih =>
    rw [allCapSub, if_neg (by simpa using hcond)]
    rw [ih (fun a ha => h a (List.mem_cons_of_mem c0 ha))]

theorem convert_to_snake_case_idem (s : String) :
    convert_to_snake_case (convert_to_snake_case s) = convert_to_snake_case s := by
  show convert_to_snake_case
      (String.mk ((allCapSub (firstCapSub s.data)).map pyLowerChar)) = _
  unfold convert_to_snake_case
  have hnu := map_pyLowerChar_no_upper (allCapSub (firstCapSub s.data))
  rw [show (String.mk ((allCapSub (firstCapSub s.data)).map pyLowerChar)).data
        = (allCapSub (firstCapSub s.data)).map pyLowerChar from rfl]
  rw [firstCapSub_eq_self hnu, allCapSub_eq_self hnu, map_pyLowerChar_eq_self hnu]

/-! ## Lemmas: dict operations -/

theorem lookupD_nil (k : String) : lookupD [] k = Option.none := rfl

theorem lookupD_cons (p : String × PValue) (d : List (String × PValue)) (k : String) :
    lookupD (p :: d) k = if p.1 == k then some p.2 else lookupD d k := by
  simp only [lookupD, List.find?]
  by_cases h : p.1 == k
  · simp [h]
  · simp [h]

theorem lookupD_map_ne (d : List (String × PValue)) (k k' : String) (v : PValue)
    (hne : k' ≠ k) :
    lookupD (d.map (fun p => if p.1 == k then (k, v) else p)) k' = lookupD d k' := by
  induction d with
  | nil => rfl
  | cons q d ih =>
    simp only [List.map_cons]
    rw [lookupD_cons, lookupD_cons]
    by_cases hq : (q.1 == k) = true
    · have hkk : (k == k') = false := by
        rw [beq_eq_false_iff_ne]
        exact fun hh => hne hh.symm
      have hqk : (q.1 == k') = false := by
        rw [beq_eq_false_iff_ne]
        intro hh
        apply hne
        rw [← hh]
        exact beq_iff_eq.mp hq
      simp only [hq, if_true, hkk, hqk, Bool.false_eq_true, if_false]
      exact ih
    · simp only [hq, Bool.false_eq_true, if_false]
      by_cases hq' : (q.1 == k') = true
      · simp [hq']
      · simp only [hq', Bool.false_eq_true, if_false]
        exact ih

theorem lookupD_map_overwrite (d : List (String × PValue)) (k : String) (v : PValue)
    (hk : containsKeyD d k = true) :
    ∀ k', lookupD (d.map (fun p => if p.1 == k then (k, v) else p)) k' =
      if k' = k then some v else lookupD d k' := by
  induction d with
  | nil => simp [containsKeyD] at hk
  | cons q d ih =>
    intro k'
    simp only [List.map_cons]
    by_cases hq : (q.1 == k) = true
    · simp only [hq, if_true]
      rw [lookupD_cons]
      by_cases hk' : k' = k
      · subst hk'
        simp
      · have hkk : (k == k') = false := by
          rw [beq_eq_false_iff_ne]
          exact fun hh => hk' hh.symm
        have hqk : (q.1 == k') = false := by
          rw [beq_eq_false_iff_ne]
          intro hh
          apply hk'
          rw [← hh]
          exact beq_iff_eq.mp hq
        simp only [hkk, Bool.false_eq_true, if_false, if_neg hk']
        rw [lookupD_map_ne d k k' v hk', lookupD_cons]
        simp only [hqk, Bool.false_eq_true, if_false]
    · have hk2 : containsKeyD d k = true := by
        simp only [containsKeyD, List.any_cons, hq, Bool.false_or] at hk
        exact hk
      simp only [hq, Bool.false_eq_true, if_false]
      rw [lookupD_cons, lookupD_cons]
      by_cases hq' : (q.1 == k') = true
      · have hne : ¬(k' = k) := by
          intro hh
          rw [hh] at hq'
          exact absurd hq' (by simpa using hq)
        simp [hq', hne]
      · simp only [hq', Bool.false_eq_true, if_false]
        exact ih hk2 k'

theorem lookupD_append_single (d : List (String × PValue)) (k : String) (v : PValue)
    (hk : containsKeyD d k = false) :
    ∀ k', lookupD (d ++ [(k, v)]) k' = if k' = k then some v else lookupD d k' := by
  induction d with
  | nil =>
    intro k'
    simp only [List.nil_append]
    rw [lookupD_cons]
    by_cases h : k' = k
    · subst h; simp
    · have : (k == k') = false := by
        simp only [beq_eq_false_iff_ne, ne_eq]
        exact fun hh => h hh.symm
      rw [this]
      simp [h, lookupD_nil]
  | cons q d ih =>
    intro k'
    have hq : (q.1 == k) = false := by
      simp only [containsKeyD, List.any_cons, Bool.or_eq_false_iff] at hk
      exact hk.1
    have hk2 : containsKeyD d k = false := by
      simp only [containsKeyD, List.any_cons, Bool.or_eq_false_iff] at hk
      exact hk.2
    simp only [List.cons_append]
    rw [lookupD_cons, lookupD_cons]
    by_cases hq' : q.1 == k'
    · have hne : ¬(k' = k) := by
        intro hh
        rw [hh] at hq'
        exact absurd hq' (by simpa using hq)
      simp [hq', hne]
    · simp only [hq', Bool.false_eq_true, if_false]
      rw [ih hk2 k']

theorem lookupD_dictInsert (d : List (String × PValue)) (k : String) (v : PValue)
    (k' : String) :
    lookupD (dictInsert d k v) k' = if k' = k then some v else lookupD d k' := by
  unfold dictInsert
  by_cases h : containsKeyD d k
  · rw [if_pos h]
    exact lookupD_map_overwrite d k v h k'
  · rw [if_neg h]
    exact lookupD_append_single d k v (by simpa using h) k'

theorem keys_dictInsert (d : List (String × PValue)) (k : String) (v : PValue) :
    (dictInsert d k v).map Prod.fst =
      if containsKeyD d k then d.map Prod.fst else d.map Prod.fst ++ [k] := by
  unfold dictInsert
  by_cases h : containsKeyD d k
  · rw [if_pos h, if_pos h, List.map_map]
    apply List.map_congr_left
    intro p _
    by_cases hp : p.1 = k
    · simp [Function.comp_apply, hp]
    · simp [Function.comp_apply, beq_iff_eq, hp]
  · rw [if_neg h, if_neg h]
    simp

theorem containsKeyD_iff_mem_keys (d : List (String × PValue)) (k : String) :
    containsKeyD d k = true ↔ k ∈ d.map Prod.fst := by
  simp only [containsKeyD, List.any_eq_true, List.mem_map]
  constructor
  · rintro ⟨p, hp, hpk⟩
    exact ⟨p, hp, beq_iff_eq.mp hpk⟩
  · rintro ⟨p, hp, hpk⟩
    exact ⟨p, hp, beq_iff_eq.mpr hpk⟩

theorem keys_nodup_dictInsert {d : List (String × PValue)} (k : String) (v : PValue)
    (h : (d.map Prod.fst).Nodup) : ((dictInsert d k v).map Prod.fst).Nodup := by
  rw [keys_dictInsert]
  by_cases hc : containsKeyD d k
  · rwa [if_pos hc]
  · rw [if_neg hc]
    rw [List.nodup_append]
    refine ⟨h, List.nodup_singleton k, ?_⟩
    intro a ha hb
    rw [List.mem_singleton] at hb
    subst hb
    exact hc ((containsKeyD_iff_mem_keys d a).mpr ha)

theorem keys_all_dictInsert {P : String → Prop} {d : List (String × PValue)}
    {k : String} (v : PValue)
    (hd : ∀ s ∈ d.map Prod.fst, P s) (hk : P k) :
    ∀ s ∈ (dictInsert d k v).map Prod.fst, P s := by
  rw [keys_dictInsert]
  by_cases hc : containsKeyD d k
  · rwa [if_pos hc]
  · rw [if_neg hc]
    intro s hs
    rcases List.mem_append.mp hs with hs | hs
    · exact hd s hs
    · rw [List.mem_singleton] at hs
      subst hs
      exact hk

theorem foldl_dictInsert_fresh (L : List (String × PValue)) :
    ∀ acc : List (String × PValue), (L.map Prod.fst).Nodup →
    (∀ p ∈ L, containsKeyD acc p.1 = false) →
    L.foldl (fun acc p => dictInsert acc p.1 p.2) acc = acc ++ L := by
  induction L with
  | nil =>
    intro acc _ _
    simp
  | cons p L ih =>
    intro acc hnd hdisj
    have hfresh : containsKeyD acc p.1 = false := hdisj p (List.mem_cons_self p L)
    have hhead : dictInsert acc p.1 p.2 = acc ++ [p] := by
      unfold dictInsert
      rw [if_neg (by simp [hfresh])]
    simp only [List.foldl_cons, hhead]
    rw [ih (acc ++ [p]) (List.Nodup.of_cons hnd) ?_]
    · simp
    · intro q hq
      have hq1 : containsKeyD acc q.1 = false := hdisj q (List.mem_cons_of_mem p hq)
      have hq2 : q.1 ≠ p.1 := by
        intro hh
        simp only [List.map_cons, List.nodup_cons] at hnd
        exact hnd.1 (hh ▸ List.mem_map_of_mem Prod.fst hq)
      simp only [containsKeyD, List.any_append, Bool.or_eq_false_iff]
      refine ⟨hq1, ?_⟩
      simp only [List.any_cons, List.any_nil, Bool.or_false, beq_eq_false_iff_ne, ne_eq]
      exact fun hh => hq2 hh.symm

theorem use_snake_case_keys_inv (d : List (String × PValue)) :
    ∀ acc : List (String × PValue),
    (acc.map Prod.fst).Nodup →
    (∀ s ∈ acc.map Prod.fst, convert_to_snake_case s = s) →
    ((d.foldl (fun acc p => dictInsert acc (convert_to_snake_case p.1) p.2) acc).map
        Prod.fst).Nodup ∧
    (∀ s ∈ (d.foldl (fun acc p => dictInsert acc (convert_to_snake_case p.1) p.2)
        acc).map Prod.fst, convert_to_snake_case s = s) := by
  induction d with
  | nil =>
    intro acc h1 h2
    exact ⟨h1, h2⟩
  | cons p d ih =>
    intro acc h1 h2
    simp only [List.foldl_cons]
    exact ih (dictInsert acc (convert_to_snake_case p.1) p.2)
      (keys_nodup_dictInsert _ _ h1)
      (keys_all_dictInsert _ h2 (convert_to_snake_case_idem p.1))

theorem keys_nodup_use_snake_case_keys (d : List (String × PValue)) :
    ((use_snake_case_keys d).map Prod.fst).Nodup :=
  (use_snake_case_keys_inv d [] (by simp) (by simp)).1

theorem keys_fixed_use_snake_case_keys (d : List (String × PValue)) :
    ∀ s ∈ (use_snake_case_keys d).map Prod.fst, convert_to_snake_case s = s :=
  (use_snake_case_keys_inv d [] (by simp) (by simp)).2

theorem use_snake_case_keys_idem (d : List (String × PValue)) :
    use_snake_case_keys (use_snake_case_keys d) = use_snake_case_keys d := by
  have hmap : (use_snake_case_keys d).map
      (fun p => (convert_to_snake_case p.1, p.2)) = use_snake_case_keys d := by
    conv_rhs => rw [← List.map_id (use_snake_case_keys d)]
    apply List.map_congr_left
    intro p hp
    have hfix : convert_to_snake_case p.1 = p.1 :=
      keys_fixed_use_snake_case_keys d p.1 (List.mem_map_of_mem Prod.fst hp)
    cases p with
    | mk k w =>
      simp only [id_eq]
      rw [show convert_to_snake_case k = k from hfix]
  have h1 : use_snake_case_keys (use_snake_case_keys d) =
      ((use_snake_case_keys d).map (fun p => (convert_to_snake_case p.1, p.2))).foldl
        (fun acc p => dictInsert acc p.1 p.2) [] := by
    rw [List.foldl_map]
    rfl
  rw [h1, hmap]
  rw [foldl_dictInsert_fresh (use_snake_case_keys d) []
    (keys_nodup_use_snake_case_keys d) (fun p _ => rfl)]
  simp

theorem lookupD_eq_none_of_not_mem {d : List (String × PValue)} {k : String}
    (h : k ∉ d.map Prod.fst) : lookupD d k = Option.none := by
  cases hfind : d.find? (fun q => q.1 == k) with
  | none => simp [lookupD, hfind]
  | some q =>
    exfalso
    have hmem := List.find?_some hfind
    have hqmem := List.mem_of_find?_eq_some hfind
    exact h (beq_iff_eq.mp hmem ▸ List.mem_map_of_mem Prod.fst hqmem)

theorem lookupD_dictMerge (a : List (String × PValue)) (b : List (String × PValue))
    (hb : (b.map Prod.fst).Nodup) (k : String) :
    lookupD (dictMerge a b) k =
      (match lookupD b k with
       | some v => some v
       | Option.none => lookupD a k) := by
  induction b generalizing a with
  | nil => simp [dictMerge, lookupD_nil]
  | cons p b ih =>
    simp only [List.map_cons, List.nodup_cons] at hb
    show lookupD (dictMerge (dictInsert a p.1 p.2) b) k = _
    rw [ih (dictInsert a p.1 p.2) hb.2, lookupD_cons]
    by_cases hk : k = p.1
    · have hbk : lookupD b k = Option.none :=
        lookupD_eq_none_of_not_mem (hk ▸ hb.1)
      have hpk : (p.1 == k) = true := beq_iff_eq.mpr hk.symm
      rw [hbk, hpk, lookupD_dictInsert, if_pos hk]
      simp
    · have hpk : (p.1 == k) = false := by
        rw [beq_eq_false_iff_ne]
        exact fun hh => hk hh.symm
      rw [hpk]
      simp only [Bool.false_eq_true, if_false]
      cases lookupD b k with
      | none => rw [lookupD_dictInsert, if_neg hk]
      | some v => rfl

theorem lookupD_restrictKeys (d : List (String × PValue)) (keys : List String)
    (k : String) :
    lookupD (restrictKeys d keys) k =
      if keys.contains k then lookupD d k else Option.none := by
  induction d with
  | nil => simp [restrictKeys, lookupD_nil]
  | cons p d ih =>
    simp only [restrictKeys, List.filter_cons]
    by_cases hp : keys.contains p.1 = true
    · rw [if_pos hp, lookupD_cons, lookupD_cons]
      by_cases hpk : (p.1 == k) = true
      · have hck : keys.contains k = true := beq_iff_eq.mp hpk ▸ hp
        rw [hpk, if_pos hck]
        simp
      · simp only [hpk, Bool.false_eq_true, if_false]
        exact ih
    · rw [if_neg hp]
      rw [show List.filter (fun p => keys.contains p.1) d = restrictKeys d keys from rfl]
      rw [ih, lookupD_cons]
      by_cases hk : keys.contains k = true
      · have hpk : (p.1 == k) = false := by
          rw [beq_eq_false_iff_ne]
          intro hh
          exact hp (hh ▸ hk)
        rw [if_pos hk, if_pos hk, hpk]
        simp
      · rw [if_neg hk, if_neg hk]

/-! ## Lemmas: the `Parameters.validate` loop -/

theorem validateFieldsLoop_spec (ps : List (String × ParamEntry)) :
    ∀ acc : List ErrorDetails,
    (∀ p ∈ ps, runFieldValidation p ≠ VResult.crash) →
    validateFieldsLoop ps acc =
      Except.ok (acc ++ ps.filterMap
        (fun p => match runFieldValidation p with
                  | VResult.err e => some e
                  | _ => Option.none)) := by
  induction ps with
  | nil =>
    intro acc _
    simp [validateFieldsLoop]
  | cons p ps ih =>
    intro acc h
    have hp := h p (List.mem_cons_self p ps)
    have hrest : ∀ q ∈ ps, runFieldValidation q ≠ VResult.crash :=
      fun q hq => h q (List.mem_cons_of_mem p hq)
    cases hr : runFieldValidation p with
    | ok =>
      simp only [validateFieldsLoop, hr, List.filterMap_cons]
      rw [ih acc hrest]
    | err e =>
      simp only [validateFieldsLoop, hr, List.filterMap_cons]
      rw [ih (acc ++ [e]) hrest]
      simp
    | crash => exact absurd hr hp

/-! ## Claim theorems -/

/-- Claim C8: the payload key normalization from camelCase-or-mixed-case to
lower-snake-case is idempotent: for every mapping, applying
`use_snake_case_keys` twice yields the same result as applying it once; in
particular the body `{"testTTL": 123}` normalizes to `{"test_ttl": 123}` and
re-normalizing that result leaves it unchanged. -/
theorem claim_C8_snake_case_idempotent :
    (∀ d : List (String × PValue),
      use_snake_case_keys (use_snake_case_keys d) = use_snake_case_keys d)
    ∧ use_snake_case_keys [("testTTL", PValue.int 123)]
        = [("test_ttl", PValue.int 123)] := by
  constructor
  · exact use_snake_case_keys_idem
  · simp [use_snake_case_keys, dictInsert, containsKeyD, convert_to_snake_case,
      firstCapSub, allCapSub, isUpperAZ, isLowerAZ, isDigit09, pyLowerChar,
      Char.ofNatAux]
    decide

/-- Claim C1: the `api` decorator's wrapper always returns an `ApiResponse`
envelope (it is a total function into `ApiResponse`, so no exception
propagates), and it classifies every raised exception: a transport timeout
yields error `API Connection timed out.` with the gateway-timeout status
code; a connection/network failure yields `API Network Connection error.`
with the server-error status code; an `ApiException` yields its message and
status code verbatim; a `ValidationError` yields `Validation error.` with
`validation_errors` set from the exception's detail list and the bad-request
status code; any other exception yields `Something went wrong.` with the
server-error status code.  The raw `str(e)` substitution applies only when
the debug flag is set (and only in the timeout, connection and catch-all
branches). -/
theorem claim_C1_api_decorator_error_classification
    (debug : Bool) (m : String) (c : Int) (r : RaisedValidation) :
    ((api_wrapper debug (Except.error (PyExc.timeoutExc m))).error
        = PValue.str (if debug then m else "API Connection timed out.")
      ∧ (api_wrapper debug (Except.error (PyExc.timeoutExc m))).status_code
        = some codeGATEWAY_TIMEOUT)
    ∧ ((api_wrapper debug (Except.error (PyExc.connectionExc m))).error
        = PValue.str (if debug then m else "API Network Connection error.")
      ∧ (api_wrapper debug (Except.error (PyExc.connectionExc m))).status_code
        = some codeSERVER_ERROR)
    ∧ ((api_wrapper debug (Except.error (PyExc.apiExc m c))).error = PValue.str m
      ∧ (api_wrapper debug (Except.error (PyExc.apiExc m c))).status_code = some c)
    ∧ ((api_wrapper debug (Except.error (PyExc.validationExc r))).error
        = PValue.str "Validation error."
      ∧ (api_wrapper debug (Except.error (PyExc.validationExc r))).validation_errors
        = some r.get_details
      ∧ (api_wrapper debug (Except.error (PyExc.validationExc r))).status_code
        = some codeBAD_REQUEST)
    ∧ ((api_wrapper debug (Except.error (PyExc.otherExc m))).error
        = PValue.str (if debug then m else "Something went wrong.")
      ∧ (api_wrapper debug (Except.error (PyExc.otherExc m))).status_code
        = some codeSERVER_ERROR) :=
  ⟨⟨rfl, rfl⟩, ⟨rfl, rfl⟩, ⟨rfl, rfl⟩, ⟨rfl, rfl, rfl⟩, ⟨rfl, rfl⟩⟩

/-- Claim C6 (code bug): the DNS record-type validator rejects `TLSA` in any
case, although `record.py` registers a `TLSA` generator and the spec's fixed
set includes `TLSA`; every other listed type (for example `A`) is accepted
case-insensitively. -/
theorem claim_C6_record_type_tlsa_rejected :
    is_record_type (PValue.str "TLSA") "record-type"
      = VResult.err ⟨"record-type", "This field must be a valid domain record type."⟩
    ∧ is_record_type (PValue.str "tlsa") "record-type"
      = VResult.err ⟨"record-type", "This field must be a valid domain record type."⟩
    ∧ is_record_type (PValue.str "a") "record-type" = VResult.ok
    ∧ is_record_type (PValue.int 123) "record-type"
      = VResult.err ⟨"record-type", "This field must be a valid domain record type."⟩ := by
  refine ⟨?_, ?_, ?_, rfl⟩ <;> rfl

/-- Claim C7 (code bug): `is_int` guards its bound checks with the
*truthiness* of `min_value` / `max_value`, so `min_value=0` is treated as
"no bound" and `-1` passes; with `min_value=1` the same value is rejected,
and a value equal to a nonzero bound is accepted (the checks are strict
`<` / `>`, hence inclusive). -/
theorem claim_C7_min_value_zero_not_enforced :
    is_int (PValue.int (-1)) "port" (some 0) Option.none = VResult.ok
    ∧ is_int (PValue.int (-1)) "port" (some 1) Option.none
      = VResult.err ⟨"port", "This field must be greater than 1."⟩
    ∧ is_int (PValue.int 10) "weight" (some 10) (some 20) = VResult.ok
    ∧ is_int (PValue.int 20) "weight" (some 10) (some 20) = VResult.ok
    ∧ is_int (PValue.int 9) "weight" (some 10) (some 20)
      = VResult.err ⟨"weight", "This field must be greater than 10."⟩
    ∧ is_int (PValue.int 21) "weight" (some 10) (some 20)
      = VResult.err ⟨"weight", "This field must be less than 20."⟩ := by
  refine ⟨rfl, ?_, rfl, rfl, ?_, ?_⟩ <;> rfl

/-- Claim C10: with `optional=True`, `validate` succeeds immediately for
*any* falsy value (not only `None` and `''` but also `0` and `False`),
without invoking the registered validator; in particular an optional `ttl`
field with value `0` passes even though `is_ttl` rejects `0`. -/
theorem claim_C10_optional_falsy_short_circuit
    (fieldname : String) (opts : VOptions) (v : PValue)
    (h1 : opts.optional = true) (h2 : truthy v = false) :
    validate fieldname v opts = VResult.ok
    ∧ validate "ttl" (PValue.int 0) { optional := true } = VResult.ok
    ∧ validate "ttl" (PValue.bool false) { optional := true } = VResult.ok
    ∧ validate "required" PValue.none { optional := true } = VResult.ok
    ∧ is_ttl (PValue.int 0) "ttl" = VResult.err ⟨"ttl", ttlErrorMessage⟩ := by
  refine ⟨?_, rfl, rfl, rfl, rfl⟩
  unfold validate
  rw [h1, h2]
  simp

/-- Witness for C10 at `fieldname = "ttl"`, `v = 0`, an optional descriptor. -/
theorem claim_C10_optional_falsy_short_circuit_witness :
    ({ optional := true } : VOptions).optional = true
    ∧ truthy (PValue.int 0) = false
    ∧ (validate "ttl" (PValue.int 0) { optional := true } = VResult.ok
       ∧ validate "ttl" (PValue.int 0) { optional := true } = VResult.ok
       ∧ validate "ttl" (PValue.bool false) { optional := true } = VResult.ok
       ∧ validate "required" PValue.none { optional := true } = VResult.ok
       ∧ is_ttl (PValue.int 0) "ttl" = VResult.err ⟨"ttl", ttlErrorMessage⟩) :=
  ⟨rfl, rfl, claim_C10_optional_falsy_short_circuit "ttl" { optional := true }
    (PValue.int 0) rfl rfl⟩

/-- Claim C3: `Parameters.validate` runs the validation engine on every field
in insertion order and collects every failure rather than stopping at the
first: the collected error list equals the in-order `filterMap` of the
per-field engine results.  Afterwards it raises nothing when zero fields
failed, raises the single `ValidationError` itself when exactly one failed,
and raises a `ValidationErrorsBatch` when more than one failed, whose
`get_details` list has exactly one fieldname/message entry per failing
field, in validation order.  (The hypothesis excludes fields whose validator
raises a non-validation exception, which `except ValidationError` would not
catch.) -/
theorem claim_C3_parameters_validate_aggregation
    (ps : Parameters)
    (h : ∀ p ∈ ps._params_with_options, runFieldValidation p ≠ VResult.crash) :
    (ps._params_with_options.filterMap
        (fun p => match runFieldValidation p with
                  | VResult.err e => some e
                  | _ => Option.none) = [] →
      Parameters.validate ps = Except.ok Option.none)
    ∧ (∀ e, ps._params_with_options.filterMap
        (fun p => match runFieldValidation p with
                  | VResult.err e => some e
                  | _ => Option.none) = [e] →
      Parameters.validate ps = Except.ok (some (RaisedValidation.single e)))
    ∧ (∀ e1 e2 rest, ps._params_with_options.filterMap
        (fun p => match runFieldValidation p with
                  | VResult.err e => some e
                  | _ => Option.none) = e1 :: e2 :: rest →
      Parameters.validate ps
        = Except.ok (some (RaisedValidation.batch (e1 :: e2 :: rest)))
      ∧ (RaisedValidation.batch (e1 :: e2 :: rest)).get_details
        = e1 :: e2 :: rest) := by
  have hloop := validateFieldsLoop_spec ps._params_with_options [] h
  rw [List.nil_append] at hloop
  refine ⟨?_, ?_, ?_⟩
  · intro hnil
    unfold Parameters.validate
    rw [hloop, hnil]
  · intro e hone
    unfold Parameters.validate
    rw [hloop, hone]
  · intro e1 e2 rest htwo
    refine ⟨?_, rfl⟩
    unfold Parameters.validate
    rw [hloop, htwo]

/-- Witness for C3: a container with two failing fields (`bool = 5` and
`caa_flag = 7`) raises a batch with exactly those two details, in order. -/
theorem claim_C3_parameters_validate_aggregation_witness :
    (∀ p ∈ (Parameters.mk
        [("bool", ParamEntry.bare (PValue.int 5)),
         ("caa_flag", ParamEntry.bare (PValue.int 7))])._params_with_options,
      runFieldValidation p ≠ VResult.crash)
    ∧ Parameters.validate
        (Parameters.mk
          [("bool", ParamEntry.bare (PValue.int 5)),
           ("caa_flag", ParamEntry.bare (PValue.int 7))])
        = Except.ok (some (RaisedValidation.batch
            [⟨"bool", "This field must be 0 or 1."⟩,
             ⟨"caa_flag", "This field must be 0 (non-critical) or 128 (critical)."⟩])) := by
  refine ⟨by decide, ?_⟩
  have h := claim_C3_parameters_validate_aggregation
    (Parameters.mk
      [("bool", ParamEntry.bare (PValue.int 5)),
       ("caa_flag", ParamEntry.bare (PValue.int 7))]) (by decide)
  exact (h.2.2 ⟨"bool", "This field must be 0 or 1."⟩
    ⟨"caa_flag", "This field must be 0 (non-critical) or 128 (critical)."⟩ [] rfl).1

/-- Claim C2: for every update endpoint wrapped by `patch_update(get, keys)`:
the `get` function receives exactly the keyword arguments whose names are in
the key list (characterized by lookup); when `patch` is truthy and the get
envelope is not successful, the wrapper returns that failed envelope and the
wrapped update function is never invoked (the result is `getFailed`, which
does not depend on `api_call`); when the get succeeds with a mapping
payload, the update function receives `{**payload, **kwargs}`, in which a
caller-supplied value takes precedence over the fetched value for every
key; and when `patch` is absent or falsy the update function receives the
caller's arguments unchanged. -/
theorem claim_C2_patch_update_protocol {R : Type}
    (get : List (String × PValue) → ApiResponse) (keys : List String)
    (api_call : List (String × PValue) → R)
    (kwargs : List (String × PValue))
    (hnodup : (kwargs.map Prod.fst).Nodup) :
    (∀ k, lookupD (restrictKeys kwargs keys) k
        = if keys.contains k then lookupD kwargs k else Option.none)
    ∧ ((match lookupD kwargs "patch" with
        | some v => truthy v
        | Option.none => false) = true →
       (get (restrictKeys kwargs keys)).success = false →
       patch_update_wrapper get keys api_call kwargs
         = PatchOutcome.getFailed (get (restrictKeys kwargs keys)))
    ∧ ((match lookupD kwargs "patch" with
        | some v => truthy v
        | Option.none => false) = true →
       (get (restrictKeys kwargs keys)).success = true →
       ∀ es, (get (restrictKeys kwargs keys)).payload = PValue.dict es →
       patch_update_wrapper get keys api_call kwargs
         = PatchOutcome.updated (api_call (dictMerge es kwargs))
       ∧ (∀ k, lookupD (dictMerge es kwargs) k
           = (match lookupD kwargs k with
              | some v => some v
              | Option.none => lookupD es k)))
    ∧ ((match lookupD kwargs "patch" with
        | some v => truthy v
        | Option.none => false) = false →
       patch_update_wrapper get keys api_call kwargs
         = PatchOutcome.updated (api_call kwargs)) := by
  refine ⟨fun k => lookupD_restrictKeys kwargs keys k, ?_, ?_, ?_⟩
  · intro hpatch hfail
    unfold patch_update_wrapper
    rw [if_pos hpatch]
    simp only [hfail, Bool.not_false, if_true]
  · intro hpatch hsucc es hes
    constructor
    · unfold patch_update_wrapper
      rw [if_pos hpatch]
      simp only [hsucc, hes, Bool.not_true, Bool.false_eq_true, if_false]
    · intro k
      exact lookupD_dictMerge es kwargs hnodup k
  · intro hpatch
    unfold patch_update_wrapper
    rw [if_neg (by simp [hpatch])]

/-- The `get` stub used by the C2 witness: a successful envelope whose
fetched record is `{host: "ns1", ttl: 3600, record: "10.0.0.10"}`. -/
def c2GetStub : List (String × PValue) → ApiResponse := fun _ =>
  { response := some ⟨200, PValue.dict
      [("host", PValue.str "ns1"), ("ttl", PValue.int 3600),
       ("record", PValue.str "10.0.0.10")]⟩ }

/-- The caller's keyword arguments used by the C2 witness. -/
def c2Kwargs : List (String × PValue) :=
  [("domain_name", PValue.str "my_example.com"),
   ("record", PValue.str "10.10.10.10"),
   ("patch", PValue.bool true)]

/-- Witness for C2: at the spec's patch-update scenario the wrapper invokes
the update with the merged arguments, where the caller's `record` wins over
the fetched one and the fetched `host`/`ttl` fill in. -/
theorem claim_C2_patch_update_protocol_witness :
    ((c2Kwargs.map Prod.fst).Nodup)
    ∧ patch_update_wrapper c2GetStub ["domain_name"] (fun d => d) c2Kwargs
        = PatchOutcome.updated
            (dictMerge (use_snake_case_keys
              [("host", PValue.str "ns1"), ("ttl", PValue.int 3600),
               ("record", PValue.str "10.0.0.10")]) c2Kwargs)
    ∧ lookupD (dictMerge (use_snake_case_keys
          [("host", PValue.str "ns1"), ("ttl", PValue.int 3600),
           ("record", PValue.str "10.0.0.10")]) c2Kwargs) "record"
        = some (PValue.str "10.10.10.10") := by
  have h := claim_C2_patch_update_protocol c2GetStub ["domain_name"]
    (fun d => d) c2Kwargs (by decide)
  have h3 := h.2.2.1 rfl rfl
    (use_snake_case_keys
      [("host", PValue.str "ns1"), ("ttl", PValue.int 3600),
       ("record", PValue.str "10.0.0.10")]) rfl
  exact ⟨by decide, h3.1, by rw [h3.2 "record"]; rfl⟩

/-! ## Lemmas: `ApiResponse.create` characterization -/

/-- The normalized payload of a raw response, as `ApiResponse.payload` sees
it once the response is stored. -/
def snakePayload (r : RequestResponse) : PValue :=
  ApiResponse.payload { response := some r }

/-- The embedded `error` value of the normalized body, when the body is a
mapping that has one. -/
def embeddedError (r : RequestResponse) : Option PValue :=
  match snakePayload r with
  | PValue.dict es => lookupD es "error"
  | _ => Option.none

/-- Whether the normalized body is a mapping whose `status` equals
`'Failed'`. -/
def failedMarker (r : RequestResponse) : Bool :=
  match snakePayload r with
  | PValue.dict es =>
    (match lookupD es "status" with
     | some v => pyEq v (PValue.str "Failed")
     | Option.none => false)
  | _ => false

/-- The `status_description` accompanying a `Failed` marker, when present. -/
def failedDescription (r : RequestResponse) : Option PValue :=
  match snakePayload r with
  | PValue.dict es => lookupD es "status_description"
  | _ => Option.none

/-- Whether an envelope's own normalized payload encodes the remote `Failed`
failure marker. -/
def payloadEncodesFailed (st : ApiResponse) : Bool :=
  match st.payload with
  | PValue.dict es =>
    (match lookupD es "status" with
     | some v => pyEq v (PValue.str "Failed")
     | Option.none => false)
  | _ => false

/-- Applies `ApiResponse.create` to a fresh envelope, keeping only the
successful result (the decorator path where no exception interferes). -/
def createOk (r : RequestResponse) : Option ApiResponse :=
  match ApiResponse.create {} r with
  | Except.ok st => some st
  | Except.error _ => Option.none

theorem option_int_some_beq (a b : Int) :
    ((some a : Option Int) == some b) = (a == b) := rfl

theorem create_characterization (r : RequestResponse) :
    ApiResponse.create {} r =
      (if !truthy ((embeddedError r).getD PValue.none)
          && !(r.status_code == codeOK) then
         Except.ok { error := PValue.str ("HTTP response " ++ toString r.status_code),
                     response := some r }
       else if failedMarker r then
         match failedDescription r with
         | some v => Except.ok { error := v, response := some r }
         | Option.none =>
           Except.error { error := (embeddedError r).getD PValue.none,
                          response := some r }
       else Except.ok { error := (embeddedError r).getD PValue.none,
                        response := some r }) := by
  cases hbody : r.body with
  | dict es =>
    simp only [ApiResponse.create, ApiResponse.payload, snakePayload,
      embeddedError, failedMarker, failedDescription, ApiResponse.status_code,
      ApiResponse.statusCodeStr, hbody]
    by_cases hok : r.status_code = codeOK <;>
    cases hlook : lookupD (use_snake_case_keys es) "error" <;>
    cases hst : lookupD (use_snake_case_keys es) "status" <;>
      simp [hbody, hlook, hst, hok, option_int_some_beq, truthy]
  | none =>
    by_cases hok : r.status_code = codeOK <;>
    simp [ApiResponse.create, ApiResponse.payload, hbody, snakePayload,
      embeddedError, failedMarker, failedDescription, ApiResponse.status_code,
      ApiResponse.statusCodeStr, option_int_some_beq, hok, truthy]
  | bool b =>
    by_cases hok : r.status_code = codeOK <;>
    simp [ApiResponse.create, ApiResponse.payload, hbody, snakePayload,
      embeddedError, failedMarker, failedDescription, ApiResponse.status_code,
      ApiResponse.statusCodeStr, option_int_some_beq, hok, truthy]
  | int n =>
    by_cases hok : r.status_code = codeOK <;>
    simp [ApiResponse.create, ApiResponse.payload, hbody, snakePayload,
      embeddedError, failedMarker, failedDescription, ApiResponse.status_code,
      ApiResponse.statusCodeStr, option_int_some_beq, hok, truthy]
  | str s =>
    by_cases hok : r.status_code = codeOK <;>
    simp [ApiResponse.create, ApiResponse.payload, hbody, snakePayload,
      embeddedError, failedMarker, failedDescription, ApiResponse.status_code,
      ApiResponse.statusCodeStr, option_int_some_beq, hok, truthy]
  | list xs =>
    by_cases hok : r.status_code = codeOK <;>
    simp [ApiResponse.create, ApiResponse.payload, hbody, snakePayload,
      embeddedError, failedMarker, failedDescription, ApiResponse.status_code,
      ApiResponse.statusCodeStr, option_int_some_beq, hok, truthy]

/-- The raw body used by the C4 counterexample: both an embedded `error` key
and a `Failed` status marker, with an OK status code. -/
def c4Body : List (String × PValue) :=
  [("error", PValue.str "embedded"), ("status", PValue.str "Failed"),
   ("status_description", PValue.str "bad auth")]

/-- The C4 counterexample response. -/
def c4Resp : RequestResponse := ⟨200, PValue.dict c4Body⟩

theorem usk_c4Body : use_snake_case_keys c4Body = c4Body := by
  simp [c4Body, use_snake_case_keys, dictInsert, containsKeyD,
    convert_to_snake_case, firstCapSub, allCapSub, isUpperAZ, isLowerAZ,
    isDigit09, pyLowerChar, Char.ofNatAux]

theorem snakePayload_c4Resp : snakePayload c4Resp = PValue.dict c4Body := by
  rw [show snakePayload c4Resp = PValue.dict (use_snake_case_keys c4Body) from rfl,
    usk_c4Body]

/-- Counterexample to claim C4 as stated: the body holds both an `error` key
(value `"embedded"`) and a `Failed` status marker under an OK status code,
yet the envelope's error is the `status_description` (`"bad auth"`), not the
embedded `error` value — the `elif` chain lets the `Failed` branch overwrite
the embedded error. -/
theorem claim_C4_counterexample :
    lookupD c4Body "error" = some (PValue.str "embedded")
    ∧ c4Resp.status_code = codeOK
    ∧ (createOk c4Resp).map ApiResponse.error = some (PValue.str "bad auth")
    ∧ PValue.str "bad auth" ≠ PValue.str "embedded" := by
  have he : embeddedError c4Resp = some (PValue.str "embedded") := by
    unfold embeddedError
    rw [snakePayload_c4Resp]
    rfl
  have hm : failedMarker c4Resp = true := by
    unfold failedMarker
    rw [snakePayload_c4Resp]
    rfl
  have hd : failedDescription c4Resp = some (PValue.str "bad auth") := by
    unfold failedDescription
    rw [snakePayload_c4Resp]
    rfl
  refine ⟨rfl, rfl, ?_, ?_⟩
  · unfold createOk
    rw [create_characterization, he, hm, hd]
    rfl
  · intro hcontra
    have : "bad auth" = "embedded" := PValue.str.inj hcontra
    simp at this

/-- Claim C4 as amended: the envelope's error from `create` follows this
precedence: (a) an embedded `error` key is read first and kept when it is
truthy and no `Failed` marker is present; (b) when the embedded error is
absent or falsy and the status code is not OK, the generic
`HTTP response <code>` message is used; (c) whenever the HTTP-error branch
is not taken and the body is a mapping with a `Failed` status marker, the
accompanying `status_description` is used — *overwriting any embedded
`error` value* (so with both an `error` key and a `Failed` marker under an
OK status, the `status_description` wins, not the embedded value); if none
apply, `error` remains unset. -/
theorem claim_C4_amended_error_precedence (r : RequestResponse)
    (st : ApiResponse) (h : ApiResponse.create {} r = Except.ok st) :
    (truthy ((embeddedError r).getD PValue.none) = true →
       failedMarker r = false →
       st.error = (embeddedError r).getD PValue.none)
    ∧ (truthy ((embeddedError r).getD PValue.none) = false →
       r.status_code ≠ codeOK →
       st.error = PValue.str ("HTTP response " ++ toString r.status_code))
    ∧ (failedMarker r = true →
       (truthy ((embeddedError r).getD PValue.none) = true
          ∨ r.status_code = codeOK) →
       (failedDescription r).isSome = true
       ∧ st.error = (failedDescription r).getD PValue.none)
    ∧ (embeddedError r = Option.none → r.status_code = codeOK →
       failedMarker r = false → st.error = PValue.none) := by
  rw [create_characterization] at h
  refine ⟨?_, ?_, ?_, ?_⟩
  · intro htru hmark
    rw [htru, hmark] at h
    simp only [Bool.not_true, Bool.false_and, Bool.false_eq_true, if_false,
      if_true] at h
    simp only [Except.ok.injEq] at h
    subst h
    rfl
  · intro htru hne
    have hbeq : (r.status_code == codeOK) = false := by
      rw [beq_eq_false_iff_ne]
      exact hne
    rw [htru, hbeq] at h
    simp only [Bool.not_false, Bool.true_and, if_true] at h
    simp only [Except.ok.injEq] at h
    subst h
    rfl
  · intro hmark hor
    have hcond : (!truthy ((embeddedError r).getD PValue.none)
        && !(r.status_code == codeOK)) = false := by
      rcases hor with htru | hok
      · rw [htru]
        rfl
      · have : (r.status_code == codeOK) = true := beq_iff_eq.mpr hok
        rw [this]
        simp
    rw [hcond, hmark] at h
    simp only [Bool.false_eq_true, if_false, if_true] at h
    cases hdesc : failedDescription r with
    | none =>
      rw [hdesc] at h
      exact absurd h (by simp)
    | some v =>
      rw [hdesc] at h
      simp only [Except.ok.injEq] at h
      subst h
      exact ⟨rfl, rfl⟩
  · intro hemb hok hmark
    have htru : truthy ((embeddedError r).getD PValue.none) = false := by
      rw [hemb]
      rfl
    have hcond : (!truthy ((embeddedError r).getD PValue.none)
        && !(r.status_code == codeOK)) = false := by
      have : (r.status_code == codeOK) = true := beq_iff_eq.mpr hok
      rw [this]
      simp
    rw [hcond, hmark] at h
    simp only [Bool.false_eq_true, if_false, Except.ok.injEq] at h
    subst h
    rw [hemb]
    rfl

/-- The response used by the C4 witness: an embedded truthy `error` with no
`Failed` marker, under an OK status. -/
def c4wResp : RequestResponse := ⟨200, PValue.dict [("error", PValue.str "boom")]⟩

/-- The envelope `create` produces for `c4wResp`. -/
def c4wSt : ApiResponse := { error := PValue.str "boom", response := some c4wResp }

theorem usk_c4wBody : use_snake_case_keys [("error", PValue.str "boom")]
    = [("error", PValue.str "boom")] := by
  simp [use_snake_case_keys, dictInsert, containsKeyD, convert_to_snake_case,
    firstCapSub, allCapSub, isUpperAZ, isLowerAZ, isDigit09, pyLowerChar,
    Char.ofNatAux]

theorem embeddedError_c4wResp : embeddedError c4wResp = some (PValue.str "boom") := by
  unfold embeddedError
  rw [show snakePayload c4wResp
      = PValue.dict (use_snake_case_keys [("error", PValue.str "boom")]) from rfl,
    usk_c4wBody]
  rfl

theorem failedMarker_c4wResp : failedMarker c4wResp = false := by
  unfold failedMarker
  rw [show snakePayload c4wResp
      = PValue.dict (use_snake_case_keys [("error", PValue.str "boom")]) from rfl,
    usk_c4wBody]
  rfl

/-- Witness for the amended C4 at `c4wResp`: `create` succeeds and branch (a)
applies — the truthy embedded `error` value is kept. -/
theorem claim_C4_amended_error_precedence_witness :
    ApiResponse.create {} c4wResp = Except.ok c4wSt
    ∧ c4wSt.error = (embeddedError c4wResp).getD PValue.none := by
  have hh : ApiResponse.create {} c4wResp = Except.ok c4wSt := by
    rw [create_characterization, embeddedError_c4wResp, failedMarker_c4wResp]
    rfl
  refine ⟨hh, ?_⟩
  exact (claim_C4_amended_error_precedence c4wResp c4wSt hh).1
    (by rw [embeddedError_c4wResp]; rfl) failedMarker_c4wResp

/-- The raw body of the C5 counterexample: a `Failed` marker whose
`status_description` is the empty string. -/
def c5Body : List (String × PValue) :=
  [("status", PValue.str "Failed"), ("status_description", PValue.str "")]

/-- The C5 counterexample response (OK status code). -/
def c5Resp : RequestResponse := ⟨200, PValue.dict c5Body⟩

theorem usk_c5Body : use_snake_case_keys c5Body = c5Body := by
  simp [c5Body, use_snake_case_keys, dictInsert, containsKeyD,
    convert_to_snake_case, firstCapSub, allCapSub, isUpperAZ, isLowerAZ,
    isDigit09, pyLowerChar, Char.ofNatAux]

theorem snakePayload_c5Resp : snakePayload c5Resp = PValue.dict c5Body := by
  rw [show snakePayload c5Resp = PValue.dict (use_snake_case_keys c5Body) from rfl,
    usk_c5Body]

/-- Counterexample to claim C5 as stated: for the body
`{"status": "Failed", "status_description": ""}` under status 200, `create`
produces an envelope whose `success` is `true` even though its normalized
payload encodes the remote `Failed` marker (the error field holds the falsy
empty string), so `success` is *not* equivalent to "status OK and error
unset and no failure marker in the payload". -/
theorem claim_C5_counterexample :
    (createOk c5Resp).map ApiResponse.success = some true
    ∧ (createOk c5Resp).map payloadEncodesFailed = some true
    ∧ (createOk c5Resp).map ApiResponse.error = some (PValue.str "") := by
  have he : embeddedError c5Resp = Option.none := by
    unfold embeddedError
    rw [snakePayload_c5Resp]
    rfl
  have hm : failedMarker c5Resp = true := by
    unfold failedMarker
    rw [snakePayload_c5Resp]
    rfl
  have hd : failedDescription c5Resp = some (PValue.str "") := by
    unfold failedDescription
    rw [snakePayload_c5Resp]
    rfl
  have hcreate : ApiResponse.create {} c5Resp
      = Except.ok { error := PValue.str "", response := some c5Resp } := by
    rw [create_characterization, he, hm, hd]
    rfl
  have hpe : payloadEncodesFailed
      { error := PValue.str "", response := some c5Resp } = true := by
    unfold payloadEncodesFailed
    rw [show ({ error := PValue.str "", response := some c5Resp }
        : ApiResponse).payload = PValue.dict (use_snake_case_keys c5Body) from rfl,
      usk_c5Body]
    rfl
  refine ⟨?_, ?_, ?_⟩
  · unfold createOk
    rw [hcreate]
    rfl
  · unfold createOk
    rw [hcreate]
    simp [hpe]
  · unfold createOk
    rw [hcreate]
    rfl

theorem create_ok_fields (r : RequestResponse) (st : ApiResponse)
    (h : ApiResponse.create {} r = Except.ok st) :
    st.response = some r ∧ st._status_code = Option.none := by
  rw [create_characterization] at h
  split at h
  · simp only [Except.ok.injEq] at h
    subst h
    exact ⟨rfl, rfl⟩
  · split at h
    · cases hdesc : failedDescription r with
      | none =>
        rw [hdesc] at h
        exact absurd h (by simp)
      | some v =>
        rw [hdesc] at h
        simp only [Except.ok.injEq] at h
        subst h
        exact ⟨rfl, rfl⟩
    · simp only [Except.ok.injEq] at h
      subst h
      exact ⟨rfl, rfl⟩

/-- Claim C5 as amended: for every envelope produced by `create`, `success`
is true exactly when the status code is OK and the error field is falsy
(unset); the remaining conjunct of the claimed equivalence holds only when
the `Failed` marker's `status_description` is truthy: under an OK status, a
payload encoding the `Failed` marker with a *non-empty* description forces
`success = false` (an empty description is the counterexample).  The
decorator's error paths likewise yield `success = false` whenever the
status code they assign is not OK (which covers every in-repo exception:
timeouts, connection failures, `ApiException` with its non-OK status codes,
validation errors, and the catch-all). -/
theorem claim_C5_amended_success_invariant (r : RequestResponse)
    (st : ApiResponse) (h : ApiResponse.create {} r = Except.ok st) :
    (st.success = true ↔ (st.status_code = some codeOK ∧ truthy st.error = false))
    ∧ (st.status_code = some codeOK → payloadEncodesFailed st = true →
       truthy ((failedDescription r).getD PValue.none) = true →
       st.success = false)
    ∧ (∀ (debug : Bool) (e : PyExc),
       (match e with | PyExc.apiExc _ c => c ≠ codeOK | _ => True) →
       (api_wrapper debug (Except.error e)).success = false) := by
  have hfields := create_ok_fields r st h
  have hstatus : st.status_code = some r.status_code := by
    unfold ApiResponse.status_code
    rw [hfields.2, hfields.1]
  have hpayload : st.payload = snakePayload r := by
    unfold snakePayload ApiResponse.payload
    rw [hfields.1]
  refine ⟨?_, ?_, ?_⟩
  · simp [ApiResponse.success, Bool.and_eq_true, beq_iff_eq]
  · intro hok hpf htru
    have hmark : failedMarker r = true := by
      unfold payloadEncodesFailed at hpf
      rw [hpayload] at hpf
      exact hpf
    have hr : r.status_code = codeOK := by
      rw [hstatus] at hok
      exact Option.some.inj hok
    rw [create_characterization] at h
    have hcond : (!truthy ((embeddedError r).getD PValue.none)
        && !(r.status_code == codeOK)) = false := by
      have : (r.status_code == codeOK) = true := beq_iff_eq.mpr hr
      rw [this]
      simp
    rw [hcond, hmark] at h
    simp only [Bool.false_eq_true, if_false, if_true] at h
    cases hdesc : failedDescription r with
    | none =>
      rw [hdesc] at h
      exact absurd h (by simp)
    | some v =>
      rw [hdesc] at h
      simp only [Except.ok.injEq] at h
      subst h
      rw [hdesc] at htru
      simp only [Option.getD] at htru
      simp [ApiResponse.success, htru]
  · intro debug e he
    cases e with
    | timeoutExc m => simp [api_wrapper, handleExc, ApiResponse.success,
        ApiResponse.status_code, codeGATEWAY_TIMEOUT, codeOK]
    | connectionExc m => simp [api_wrapper, handleExc, ApiResponse.success,
        ApiResponse.status_code, codeSERVER_ERROR, codeOK]
    | apiExc m c =>
      have : ((some c : Option Int) == some codeOK) = false := by
        rw [option_int_some_beq, beq_eq_false_iff_ne]
        exact he
      simp [api_wrapper, handleExc, ApiResponse.success, ApiResponse.status_code, this]
    | validationExc rv => simp [api_wrapper, handleExc, ApiResponse.success,
        ApiResponse.status_code, codeBAD_REQUEST, codeOK]
    | otherExc m => simp [api_wrapper, handleExc, ApiResponse.success,
        ApiResponse.status_code, codeSERVER_ERROR, codeOK]

/-- The raw body of the C5 witness: a `Failed` marker with a non-empty
description. -/
def c5wBody : List (String × PValue) :=
  [("status", PValue.str "Failed"), ("status_description", PValue.str "bad auth")]

/-- The C5 witness response (OK status code). -/
def c5wResp : RequestResponse := ⟨200, PValue.dict c5wBody⟩

/-- The envelope `create` produces for `c5wResp`. -/
def c5wSt : ApiResponse :=
  { error := PValue.str "bad auth", response := some c5wResp }

theorem usk_c5wBody : use_snake_case_keys c5wBody = c5wBody := by
  simp [c5wBody, use_snake_case_keys, dictInsert, containsKeyD,
    convert_to_snake_case, firstCapSub, allCapSub, isUpperAZ, isLowerAZ,
    isDigit09, pyLowerChar, Char.ofNatAux]

theorem snakePayload_c5wResp : snakePayload c5wResp = PValue.dict c5wBody := by
  rw [show snakePayload c5wResp = PValue.dict (use_snake_case_keys c5wBody) from rfl,
    usk_c5wBody]

/-- Witness for the amended C5 at `c5wResp` (`{"status": "Failed",
"status_description": "bad auth"}` under status 200): the created envelope
has `success = false`. -/
theorem claim_C5_amended_success_invariant_witness :
    ApiResponse.create {} c5wResp = Except.ok c5wSt
    ∧ c5wSt.success = false := by
  have he : embeddedError c5wResp = Option.none := by
    unfold embeddedError
    rw [snakePayload_c5wResp]
    rfl
  have hm : failedMarker c5wResp = true := by
    unfold failedMarker
    rw [snakePayload_c5wResp]
    rfl
  have hd : failedDescription c5wResp = some (PValue.str "bad auth") := by
    unfold failedDescription
    rw [snakePayload_c5wResp]
    rfl
  have hh : ApiResponse.create {} c5wResp = Except.ok c5wSt := by
    rw [create_characterization, he, hm, hd]
    rfl
  have hpf : payloadEncodesFailed c5wSt = true := by
    unfold payloadEncodesFailed
    rw [show c5wSt.payload = PValue.dict (use_snake_case_keys c5wBody) from rfl,
      usk_c5wBody]
    rfl
  refine ⟨hh, ?_⟩
  exact (claim_C5_amended_success_invariant c5wResp c5wSt hh).2.1 rfl hpf
    (by rw [hd]; rfl)

/-- The C9 counterexample response: a list-of-mappings body. -/
def c9Resp : RequestResponse :=
  ⟨200, PValue.list [PValue.dict [("testTTL", PValue.int 123)]]⟩

/-- Counterexample to claim C9 as stated: a body that is a *sequence* of
mappings passes through `payload` completely unchanged — the element's
`testTTL` key is not rewritten to `test_ttl` (the repository's own test
`test_api_response_works_with_request_response_list` asserts this
passthrough). -/
theorem claim_C9_counterexample :
    ApiResponse.payload { response := some c9Resp }
      = PValue.list [PValue.dict [("testTTL", PValue.int 123)]]
    ∧ PValue.list [PValue.dict [("testTTL", PValue.int 123)]]
      ≠ PValue.list [PValue.dict [("test_ttl", PValue.int 123)]] := by
  refine ⟨rfl, ?_⟩
  intro hcontra
  have h1 := (PValue.list.inj hcontra)
  have h2 : PValue.dict [("testTTL", PValue.int 123)]
      = PValue.dict [("test_ttl", PValue.int 123)] := by
    injection h1 with ha hb
  have h3 := PValue.dict.inj h2
  simp at h3

/-- Claim C9 as amended: `payload` applies the lower-snake-case key
rewriting to the top-level keys only when the decoded body is a single
mapping (and when the converted keys do not collide, the rewriting is
exactly a per-entry key map); every other body — including a sequence of
mappings — passes through unchanged. -/
theorem claim_C9_amended_payload_normalization (st : ApiResponse)
    (r : RequestResponse) (h : st.response = some r) :
    (∀ es, r.body = PValue.dict es →
      st.payload = PValue.dict (use_snake_case_keys es)
      ∧ ((es.map (fun p => convert_to_snake_case p.1)).Nodup →
         use_snake_case_keys es
           = es.map (fun p => (convert_to_snake_case p.1, p.2))))
    ∧ ((match r.body with
        | PValue.dict _ => False
        | _ => True) → st.payload = r.body) := by
  constructor
  · intro es hes
    constructor
    · unfold ApiResponse.payload
      rw [h]
      simp only [hes]
    · intro hnd
      have h1 : use_snake_case_keys es
          = (es.map (fun p => (convert_to_snake_case p.1, p.2))).foldl
              (fun acc p => dictInsert acc p.1 p.2) [] := by
        rw [List.foldl_map]
        rfl
      rw [h1]
      rw [foldl_dictInsert_fresh (es.map (fun p => (convert_to_snake_case p.1, p.2)))
        [] ?_ (fun p _ => rfl)]
      · simp
      · rw [List.map_map]
        exact hnd
  · intro hnotdict
    unfold ApiResponse.payload
    rw [h]
    cases hbody : r.body with
    | dict es =>
      rw [hbody] at hnotdict
      exact absurd hnotdict (by simp)
    | none => simp only [hbody]
    | bool b => simp only [hbody]
    | int n => simp only [hbody]
    | str s => simp only [hbody]
    | list xs => simp only [hbody]

/-- The C9 witness response: a single-mapping body `{"testTTL": 123}`. -/
def c9wResp : RequestResponse := ⟨200, PValue.dict [("testTTL", PValue.int 123)]⟩

theorem conv_testTTL : convert_to_snake_case "testTTL" = "test_ttl" := by
  simp [convert_to_snake_case, firstCapSub, allCapSub, isUpperAZ, isLowerAZ,
    isDigit09, pyLowerChar, Char.ofNatAux]
  decide

/-- Witness for the amended C9 at `c9wResp`: the single-mapping body gets
its top-level key rewritten, `{"testTTL": 123}` becoming
`{"test_ttl": 123}`. -/
theorem claim_C9_amended_payload_normalization_witness :
    ({ response := some c9wResp } : ApiResponse).response = some c9wResp
    ∧ ({ response := some c9wResp } : ApiResponse).payload
      = PValue.dict [("test_ttl", PValue.int 123)] := by
  refine ⟨rfl, ?_⟩
  have h := claim_C9_amended_payload_normalization
    { response := some c9wResp } c9wResp rfl
  have h1 := h.1 [("testTTL", PValue.int 123)] rfl
  have hmapkeys : ([("testTTL", PValue.int 123)].map
      (fun p => convert_to_snake_case p.1)) = ["test_ttl"] := by
    simp [conv_testTTL]
  have husk := h1.2 (by rw [hmapkeys]; simp)
  rw [h1.1, husk]
  simp [conv_testTTL]
